import Mathlib

/-!
Verification of the multi-checker Tamil text analyzer.

This file gives a shallow embedding of the orchestration core of the
repository (main.py together with the three checker modules under
models/) and proves the specified properties about it.

Modelling conventions:
- Python tuples (category, message, context) become the ErrorRecord
  structure.
- A call that may raise is modelled as an Except String value; a caught
  exception carries its rendered message as the String payload.
- External collaborators (the indicnlp tokenizer, the sklearn
  vectorizer/classifier pipeline, the transformer masked-language model,
  floating point percentage rendering) are passed in as parameters; all
  code of the repository itself is translated directly.
- Python regular expressions used by the checkers are compiled, by hand,
  into explicit backtracking matchers over lists of characters; each
  pattern list carries the original pattern shape in a comment.
-/

/-- ErrorRecord models the (error_type, msg, context) triples that every
checker emits and that main.py destructures. -/
structure ErrorRecord where
  category : String
  message : String
  context : String
deriving DecidableEq

/-! ## Character classes and elementary regex machinery -/

/-- Whitespace characters stripped by the Python str.strip method and
matched by the regex class backslash-s (ASCII portion, which covers every
input occurring in this repository). -/
def pyWhitespace : List Char := [' ', '\t', '\n', '\r', '\x0b', '\x0c']

/-- Decidable test for membership in pyWhitespace. -/
def isSpaceChar (c : Char) : Bool := pyWhitespace.contains c

/-- Model of the regex word-character class for the character sets that
appear in this repository: ASCII alphanumerics, underscore, and the Tamil
Unicode block U+0B80 to U+0BFF. -/
def isWordChar (c : Char) : Bool :=
  c.isAlphanum || c == '_' || (0x0B80 ≤ c.toNat && c.toNat ≤ 0x0BFF)

/-- Tamil independent vowels, the regex class ranging from U+0B85 to
U+0B94 used by the statistical checker. -/
def isTamilIndependentVowel (c : Char) : Bool :=
  0x0B85 ≤ c.toNat && c.toNat ≤ 0x0B94

/-- Tamil dependent vowel signs, the regex class ranging from U+0BBE to
U+0BCC used by the statistical checker. -/
def isTamilVowelSign (c : Char) : Bool :=
  0x0BBE ≤ c.toNat && c.toNat ≤ 0x0BCC

/-- Matcher combinator: consume exactly one character of a class, then
continue. Models a single regex character class occurrence. -/
def clsThen (cls : Char → Bool) (k : List Char → Bool) : List Char → Bool
  | [] => false
  | c :: cs => cls c && k cs

/-- Matcher combinator: consume one or more characters of a class
(trying every split, which gives the existential semantics of a
backtracking regex plus operator), then continue. -/
def plusThen (cls : Char → Bool) (k : List Char → Bool) : List Char → Bool
  | [] => false
  | c :: cs => cls c && (k cs || plusThen cls k cs)

/-- Matcher combinator: consume an exact literal, then continue. -/
def litThen (lit : List Char) (k : List Char → Bool) (s : List Char) : Bool :=
  lit.isPrefixOf s && k (List.drop lit.length s)

/-- Matcher combinator: the empty continuation; a Python re.match or
re.search needs only a prefix match, so the remainder is unconstrained. -/
def matchEnd : List Char → Bool := fun _ => true

/-- Matcher combinator for the regex dot-star: skip any number of
non-newline characters, then continue (Python dot does not match a
newline without the DOTALL flag). -/
def dotStarThen (k : List Char → Bool) : List Char → Bool
  | [] => k []
  | c :: cs => k (c :: cs) || (!(c == '\n') && dotStarThen k cs)

/-- Model of re.search: try the matcher at every suffix of the input. -/
def searchAnywhere (m : List Char → Bool) (s : List Char) : Bool :=
  (s.tails).any m

/-- Model of re.search for the patterns of shape A dot-star B that both
pattern-based checkers use: an occurrence of the literal A followed, on
the same line, by an occurrence of the literal B. -/
def reSearchAThenB (a b : String) (s : List Char) : Bool :=
  searchAnywhere (litThen a.data (dotStarThen (litThen b.data matchEnd))) s

/-- Model of re.match for the word-spacing patterns of shape
word-chars-plus MID word-chars-plus, anchored at the start of the word. -/
def reMatchWordMidWord (mid : List Char) (w : List Char) : Bool :=
  plusThen isWordChar (litThen mid (plusThen isWordChar matchEnd)) w

/-- Helper for countOcc: scan left to right; the first argument counts
characters still to skip past the last counted occurrence, so that
occurrences are non-overlapping. Structural recursion on the scanned
list keeps every concrete evaluation kernel-reducible. -/
def countOccAux (p : List Char) : Nat → List Char → Nat
  | _, [] => 0
  | 0, c :: cs =>
    if p.isPrefixOf (c :: cs) && !p.isEmpty then
      1 + countOccAux p (p.length - 1) cs
    else
      countOccAux p 0 cs
  | k + 1, _ :: cs => countOccAux p k cs

/-- Count of non-overlapping occurrences of a literal pattern, scanning
left to right; models re.finditer for a literal pattern. -/
def countOcc (p s : List Char) : Nat := countOccAux p 0 s

/-! ## Sentence splitting (shared verbatim by the rule-based and the
deep-learning checkers) -/

/-- Sentence delimiter class of the regex used by split_sentences. -/
def sentenceDelims : List Char := ['.', '!', '?', '।']

/-- Model of re.split on a single-character class: cut the list at every
delimiter occurrence, keeping empty segments like Python does. -/
def splitOnAny (delims : List Char) : List Char → List (List Char)
  | [] => [[]]
  | c :: cs =>
    match splitOnAny delims cs with
    | [] => [[]]
    | cur :: rest =>
      if delims.contains c then [] :: cur :: rest else (c :: cur) :: rest

/-- Model of the Python str.strip method. -/
def pyStrip (s : List Char) : List Char :=
  ((s.dropWhile isSpaceChar).reverse.dropWhile isSpaceChar).reverse

/-- Translation of split_sentences from rule_based_model.py (the private
variant in deep_learning_model.py is identical): split on sentence
delimiters, strip each piece, keep the nonempty pieces. -/
def split_sentences (text : String) : List String :=
  (((splitOnAny sentenceDelims text.data).map pyStrip).filter
    (fun s => !s.isEmpty)).map (fun s => String.mk s)

/-! ## RuleBasedChecker (models/rule_based_model.py) -/

namespace RuleBased

/-- Translation of the subject_verb_agreement rule table; each regex has
the shape A dot-star B and is stored here as the pair of its two
literals together with its message. -/
def subject_verb_agreement : List ((String × String) × String) :=
  [(("நான்", "கிறார்கள்"), "First person singular with plural verb"),
   (("நான்", "கிறார்"), "First person singular with formal verb"),
   (("நான்", "கிறது"), "First person with neuter verb"),
   (("நாங்கள்", "கிறான்"), "First person plural with singular verb"),
   (("நாங்கள்", "கிறாள்"), "First person plural with feminine singular"),
   (("நீ", "கிறார்கள்"), "Second person singular with plural verb"),
   (("நீங்கள்", "கிறான்"), "Second person plural with singular verb"),
   (("ஆசிரியர்", "கிறான்"), "Honorific subject with informal verb")]

/-- Translation of the spelling_patterns rule table; each pattern is a
literal matched with re.match, hence a required word prefix. -/
def spelling_patterns : List (String × String) :=
  [("சல்", "Possible misspelling of செல்"),
   ("பதில்", "Possible misspelling of பதிவு"),
   ("எங்க", "Possible misspelling of எங்கே")]

/-- Translation of the word_spacing rule table; each regex has the shape
word-chars-plus MID word-chars-plus and is stored as its middle literal
with its message. -/
def word_spacing : List (String × String) :=
  [("க்கு", "Missing space before க்கு"),
   ("யில்", "Missing space before யில்"),
   ("உடன்", "Missing space before உடன்")]

/-- Keys of the basic predefined dictionary built by the private
dictionary loader of RuleBasedChecker. -/
def basic_dictionary : List String :=
  ["நான்", "நீ", "நாங்கள்", "பள்ளி", "பள்ளிக்கு", "செல்கிறேன்",
   "செல்கிறான்", "செல்கிறாள்", "செல்கிறது", "படிக்கிறோம்", "பாடல்",
   "பாடுகிறேன்", "ஆசிரியர்", "நல்ல", "பாடங்களை", "கற்றுக்",
   "கொடுக்கிறார்"]

/-- Translation of the per-word body of check_spelling: spelling-pattern
prefixes, then the dictionary lookup, then the word-spacing patterns, in
source order. The tamil_words parameter is the key set of the loaded
dictionary (the basic dictionary possibly extended from a data file). -/
def check_spelling_word (tamil_words : List String) (word : String) :
    List ErrorRecord :=
  (spelling_patterns.filterMap (fun p =>
    if p.1.data.isPrefixOf word.data then
      some ⟨"spelling", p.2, word⟩
    else none))
  ++ (if !(tamil_words.contains word) && !(word.data.any Char.isDigit) then
        [⟨"spelling", "Unknown word: " ++ word, word⟩]
      else [])
  ++ (word_spacing.filterMap (fun p =>
    if reMatchWordMidWord p.1.data word.data then
      some ⟨"spelling", p.2, word⟩
    else none))

/-- Translation of check_spelling given the token list produced by the
external indicnlp tokenizer call. -/
def check_spelling_tokens (tamil_words : List String)
    (words : List String) : List ErrorRecord :=
  words.flatMap (check_spelling_word tamil_words)

/-- Translation of check_grammar: every sentence is tested against every
subject-verb-agreement regex with re.search. -/
def check_grammar (text : String) : List ErrorRecord :=
  (split_sentences text).flatMap (fun sentence =>
    subject_verb_agreement.filterMap (fun p =>
      if reSearchAThenB p.1.1 p.1.2 sentence.data then
        some ⟨"grammar", p.2, sentence⟩
      else none))

/-- Body of the try block of check_text. The tokenize parameter is the
external trivial_tokenize call of indicnlp, modelled as fallible because
it is the only call in the try block that can raise (check_spelling has
no internal handler). The final Python expression returning all_errors
if nonempty and the empty list otherwise is the identity. -/
def check_text_body (tokenize : String → Except String (List String))
    (tamil_words : List String) (text : String) :
    Except String (List ErrorRecord) :=
  match tokenize text with
  | Except.error e => Except.error e
  | Except.ok words =>
      Except.ok (check_spelling_tokens tamil_words words ++ check_grammar text)

/-- Translation of check_text of RuleBasedChecker, a try/except boundary
around the body that converts a raised exception into a single
error-category record over the original input. -/
def check_text (tokenize : String → Except String (List String))
    (tamil_words : List String) (text : String) : List ErrorRecord :=
  match check_text_body tokenize tamil_words text with
  | Except.ok errs => errs
  | Except.error e => [⟨"error", "Error in text analysis: " ++ e, text⟩]

end RuleBased

example :
    RuleBased.check_grammar ("நான் பள்ளிக்கு செல்கிறது") =
      [⟨"grammar", "First person with neuter verb",
        "நான் பள்ளிக்கு செல்கிறது"⟩] := by decide

example : RuleBased.check_grammar ("") = [] := rfl

/-! ## StatisticalChecker (models/statistical_model.py) -/

namespace Statistical

/-- Matcher for the two common_errors regexes of shape word-chars-plus
SUF1 whitespace-plus word-chars-plus SUF2, searched anywhere in the
input. -/
def searchWordSufPair (suf1 suf2 : String) (s : List Char) : Bool :=
  searchAnywhere
    (plusThen isWordChar (litThen suf1.data (plusThen isSpaceChar
      (plusThen isWordChar (litThen suf2.data matchEnd))))) s

/-- Matcher for the third common_errors regex: one Tamil independent
vowel, whitespace-plus, one Tamil dependent vowel sign. -/
def searchVowelSpaceSign (s : List Char) : Bool :=
  searchAnywhere
    (clsThen isTamilIndependentVowel (plusThen isSpaceChar
      (clsThen isTamilVowelSign matchEnd))) s

/-- Translation of the private analyze_patterns method: the three
common_errors patterns in dictionary insertion order, then the two
context_rules patterns of shape A dot-star B, each tested with
re.search over the whole input. -/
def analyze_patterns (text : String) : List ErrorRecord :=
  ((if searchWordSufPair ("கிறான்") ("கிறாள்") text.data then
      [⟨"statistical", "Pattern error: Inconsistent gender agreement", text⟩]
    else [])
  ++ (if searchWordSufPair ("கிறேன்") ("கிறார்") text.data then
      [⟨"statistical", "Pattern error: Inconsistent honorific usage", text⟩]
    else [])
  ++ (if searchVowelSpaceSign text.data then
      [⟨"statistical", "Pattern error: Invalid vowel mark placement", text⟩]
    else []))
  ++ ((if reSearchAThenB ("நான்") ("கிறார்கள்") text.data then
      [⟨"statistical", "Context error: subject_verb_mismatch", text⟩]
    else [])
  ++ (if reSearchAThenB ("நாங்கள்") ("கிறான்") text.data then
      [⟨"statistical", "Context error: number_mismatch", text⟩]
    else []))

/-- Translation of check_text of StatisticalChecker. The sklearn
feature-extraction and probability prediction pipeline is external; it is
modelled by the predict parameter returning the four probabilities read
by the source, namely spelling_pred at indices 0 and 1 and grammar_pred
at indices 0 and 1, as exact rationals, or failing. The fmtPct parameter
models the external floating point percentage rendering of an f-string.
A failure anywhere in the try block is caught and becomes a single
error-category record over the original input. -/
def check_text (predict : String → Except String (ℚ × ℚ × ℚ × ℚ))
    (fmtPct : ℚ → String) (text : String) : List ErrorRecord :=
  match predict text with
  | Except.error e => [⟨"error", "Error during analysis: " ++ e, text⟩]
  | Except.ok (sp0, sp1, gr0, gr1) =>
      ((if sp0 < (8/10 : ℚ) then
          [⟨"statistical",
            "Possible spelling errors (confidence: " ++ fmtPct sp1 ++ ")",
            text⟩]
        else [])
      ++ (if gr0 < (8/10 : ℚ) then
          [⟨"statistical",
            "Possible grammar errors (confidence: " ++ fmtPct gr1 ++ ")",
            text⟩]
        else []))
      ++ analyze_patterns text

end Statistical

example : Statistical.analyze_patterns ("") = [] := rfl

/-! ## DeepLearningChecker (models/deep_learning_model.py) -/

namespace DeepLearning

/-- Translation of the grammar entry of the tamil_patterns table; each
regex has the shape A dot-star B. -/
def grammar_patterns : List ((String × String) × String) :=
  [(("நான்", "கிறது"), "First person with neuter verb - use கிறேன் instead"),
   (("நாங்கள்", "கிறான்"),
     "Plural subject with singular verb - use கிறோம் instead"),
   (("அவர்", "கிறேன்"),
     "Third person honorific with first person verb - use கிறார் instead"),
   (("நீங்கள்", "கிறான்"),
     "Honorific subject with informal verb - use கிறீர்கள் instead")]

/-- Translation of the spelling entry of the tamil_patterns table; each
pattern is a literal, paired with its suggested replacement. -/
def spelling_patterns : List (String × String) :=
  [("சல்", "செல்"), ("பதில்", "பதிவு"), ("எங்க", "எங்கே")]

/-- Translation of the spacing entry of the tamil_patterns table; each
regex has the shape word-chars-plus MID word-chars-plus, stored as its
middle literal with its message. -/
def spacing_patterns : List (String × String) :=
  [("க்கு", "Add space before க்கு"),
   ("யில்", "Add space before யில்"),
   ("உடன்", "Add space before உடன்")]

/-- Translation of the private check_patterns method, iterating the
tamil_patterns table in insertion order (grammar, spelling, spacing) and
emitting one record per re.finditer match. On a single-line sentence a
greedy dot-star pattern yields at most one match, a literal pattern
yields one match per non-overlapping occurrence, and a spacing pattern
yields one record when it occurs (its matches cover maximal word runs,
at most one per run containing the middle literal). -/
def check_patterns (text : String) : List ErrorRecord :=
  (grammar_patterns.filterMap (fun p =>
    if reSearchAThenB p.1.1 p.1.2 text.data then
      some ⟨"grammar", p.2, text⟩
    else none))
  ++ (spelling_patterns.flatMap (fun p =>
    List.replicate (countOcc p.1.data text.data)
      ⟨"spelling",
        "Suggestion: Replace \"" ++ p.1 ++ "\" with \"" ++ p.2 ++ "\"",
        text⟩))
  ++ (spacing_patterns.filterMap (fun p =>
    if searchAnywhere (reMatchWordMidWord p.1.data) text.data then
      some ⟨"format", p.2, text⟩
    else none))

/-- Translation of the private word-probability assessment: the masked
language model inference is external and modelled by the mlm parameter
returning per-word probabilities as exact rationals or failing; the
method catches its own failures and returns the empty list (it also
returns the empty list when the model is unavailable, a case the failing
outcome of mlm covers as well since that path never raises). -/
def assess_word_probability
    (mlm : String → Except String (List (String × ℚ))) (text : String) :
    List (String × ℚ) :=
  match mlm text with
  | Except.ok ws => ws
  | Except.error _ => []

/-- Body of the try block of check_text: per sentence, the pattern
records followed by a spelling record for every word whose assessed
probability is below one tenth. -/
def check_text_body (mlm : String → Except String (List (String × ℚ)))
    (fmtPct : ℚ → String) (text : String) : List ErrorRecord :=
  (split_sentences text).flatMap (fun sentence =>
    check_patterns sentence
    ++ (assess_word_probability mlm sentence).filterMap (fun wp =>
      if wp.2 < (1/10 : ℚ) then
        some ⟨"spelling",
          "Unusual word detected: \"" ++ wp.1 ++ "\" (confidence: "
            ++ fmtPct wp.2 ++ ")",
          sentence⟩
      else none))

/-- Translation of the except clause of check_text of
DeepLearningChecker: a raised exception becomes a single error-category
record over the original input, a normal outcome is returned as is. -/
def handleOutcome (text : String) :
    Except String (List ErrorRecord) → List ErrorRecord
  | Except.ok errs => errs
  | Except.error e => [⟨"error", "Error in analysis: " ++ e, text⟩]

/-- Translation of check_text of DeepLearningChecker: the try/except
boundary around the body. In this typed embedding the body is total
because the word-probability assessment catches its own failures, so the
wrapped outcome is always ok; the except clause itself is the
handleOutcome function above. -/
def check_text (mlm : String → Except String (List (String × ℚ)))
    (fmtPct : ℚ → String) (text : String) : List ErrorRecord :=
  handleOutcome text (Except.ok (check_text_body mlm fmtPct text))

end DeepLearning

/-! ## TamilTextAnalyzer orchestration (main.py) -/

/-- Checker models the capability surface that main.py touches on a
registered model object: the check_text call, which may raise (an
Except.error outcome), and the optional correct_spelling capability
probed with hasattr, itself a call that may raise when present. -/
structure Checker where
  check_text : String → Except String (List ErrorRecord)
  correct_spelling : Option (String → Except String String)

/-- Translation of the filtering condition of analyze_text in main.py:
a record is retained iff its category is spelling and spelling checking
is on, or its category is grammar or statistical and grammar checking is
on. There is no other branch: every record failing this condition is
dropped. -/
def keepRecord (check_spelling check_grammar : Bool) (r : ErrorRecord) :
    Bool :=
  (r.category == "spelling" && check_spelling)
  || ((r.category == "grammar" || r.category == "statistical")
        && check_grammar)

/-- Record synthesized by the except clause of the per-checker loop of
analyze_text. -/
def errorRecordFor (text e : String) : ErrorRecord :=
  ⟨"error", "Error processing text: " ++ e, text⟩

/-- One iteration of the per-checker loop of analyze_text, returning the
final value stored under the checker name in results together with the
optional value stored under it in corrections. The try block covers the
check_text call, the filtering, the results assignment, the capability
probe and the correct_spelling call; an exception raised anywhere in it
leaves the error record as the final results entry and adds no
corrections entry (a corrections assignment only happens after the
correct_spelling call returns). -/
def processChecker (check_spelling check_grammar : Bool) (text : String)
    (c : Checker) : List ErrorRecord × Option String :=
  match c.check_text text with
  | Except.error e => ([errorRecordFor text e], none)
  | Except.ok errs =>
      let filtered := errs.filter (keepRecord check_spelling check_grammar)
      match c.correct_spelling with
      | none => (filtered, none)
      | some f =>
          match f text with
          | Except.ok s => (filtered, some s)
          | Except.error e => ([errorRecordFor text e], none)

/-- Translation of analyze_text of TamilTextAnalyzer, generalized over
the registry (the models mapping). Python dictionaries preserve
insertion order, so results and corrections are modelled as association
lists built in registry order. -/
def analyze_text (registry : List (String × Checker)) (text : String)
    (check_spelling check_grammar : Bool) :
    List (String × List ErrorRecord) × List (String × String) :=
  match registry with
  | [] => ([], [])
  | (name, c) :: rest =>
      let r := processChecker check_spelling check_grammar text c
      let tail := analyze_text rest text check_spelling check_grammar
      ((name, r.1) :: tail.1,
       match r.2 with
       | some s => (name, s) :: tail.2
       | none => tail.2)

/-- Checker value for a RuleBasedChecker instance: check_text never
raises (it has its own handler), and the class defines no
correct_spelling method, so the hasattr probe fails. -/
def mkRuleBasedChecker (tokenize : String → Except String (List String))
    (tamil_words : List String) : Checker :=
  ⟨fun text => Except.ok (RuleBased.check_text tokenize tamil_words text),
   none⟩

/-- Checker value for a DeepLearningChecker instance: check_text never
raises, and the class defines get_correction_suggestions but no
correct_spelling method, so the hasattr probe fails. -/
def mkDeepLearningChecker
    (mlm : String → Except String (List (String × ℚ)))
    (fmtPct : ℚ → String) : Checker :=
  ⟨fun text => Except.ok (DeepLearning.check_text mlm fmtPct text), none⟩

/-- Checker value for a StatisticalChecker instance: check_text never
raises, and the class defines no correct_spelling method, so the hasattr
probe fails. -/
def mkStatisticalChecker (predict : String → Except String (ℚ × ℚ × ℚ × ℚ))
    (fmtPct : ℚ → String) : Checker :=
  ⟨fun text => Except.ok (Statistical.check_text predict fmtPct text), none⟩

/-- Registry built by the TamilTextAnalyzer constructor once every
checker constructor has returned: the three models in dictionary
insertion order. -/
def tamilAnalyzerModels (tokenize : String → Except String (List String))
    (tamil_words : List String)
    (mlm : String → Except String (List (String × ℚ)))
    (fmtDL : ℚ → String)
    (predict : String → Except String (ℚ × ℚ × ℚ × ℚ))
    (fmtStat : ℚ → String) : List (String × Checker) :=
  [("Rule-based", mkRuleBasedChecker tokenize tamil_words),
   ("Deep Learning", mkDeepLearningChecker mlm fmtDL),
   ("Statistical", mkStatisticalChecker predict fmtStat)]

/-- Translation of the TamilTextAnalyzer constructor: the models
dictionary literal evaluates the three checker constructors eagerly in
order, with no exception handling around them. Each constructor outcome
is a parameter because construction failures arise in external calls
(dictionary file decoding, model downloading, classifier fitting). -/
def tamilAnalyzerInit (rb dl st : Except String Checker) :
    Except String (List (String × Checker)) :=
  match rb with
  | Except.error e => Except.error e
  | Except.ok rbc =>
      match dl with
      | Except.error e => Except.error e
      | Except.ok dlc =>
          match st with
          | Except.error e => Except.error e
          | Except.ok stc =>
              Except.ok [("Rule-based", rbc), ("Deep Learning", dlc),
                         ("Statistical", stc)]

/-- Pure tally step of create_error_visualization in main.py: one
(model name, category) row with count one for every record whose
category is not error, in results order. The chart construction that
consumes these rows is presentation and out of scope. -/
def error_data (results : List (String × List ErrorRecord)) :
    List (String × String) :=
  results.flatMap (fun p =>
    ((p.2.map ErrorRecord.category).filter (fun t => t != "error")).map
      (fun t => (p.1, t)))

/-! ## General lemmas about the orchestrator -/

/-- Results keys follow the registry, entry by entry. -/
theorem analyze_text_results_map_fst (registry : List (String × Checker))
    (text : String) (cs cg : Bool) :
    ((analyze_text registry text cs cg).1).map Prod.fst =
      registry.map Prod.fst := by
  induction registry with
  | nil => rfl
  | cons hd tl ih =>
      obtain ⟨name, c⟩ := hd
      simp only [analyze_text, List.map_cons]
      exact congrArg (name :: ·) ih

/-- Splitting the registry splits the results list at the same point. -/
theorem analyze_text_append (xs ys : List (String × Checker))
    (text : String) (cs cg : Bool) :
    (analyze_text (xs ++ ys) text cs cg).1 =
        (analyze_text xs text cs cg).1 ++ (analyze_text ys text cs cg).1
    ∧ (analyze_text (xs ++ ys) text cs cg).2 =
        (analyze_text xs text cs cg).2 ++ (analyze_text ys text cs cg).2 := by
  induction xs with
  | nil => exact ⟨rfl, rfl⟩
  | cons hd tl ih =>
      obtain ⟨name, c⟩ := hd
      simp only [List.cons_append, analyze_text]
      refine ⟨congrArg _ ih.1, ?_⟩
      cases (processChecker cs cg text c).2 with
      | none => exact ih.2
      | some s => simpa using ih.2

/-- Looking a checker name up in the results gives exactly the outcome of
processing that checker, provided registry names are unique. -/
theorem analyze_text_lookup (registry : List (String × Checker))
    (text : String) (cs cg : Bool) (n : String) (c : Checker)
    (hnd : (registry.map Prod.fst).Nodup) (hmem : (n, c) ∈ registry) :
    List.lookup n (analyze_text registry text cs cg).1 =
      some (processChecker cs cg text c).1 := by
  induction registry with
  | nil => cases hmem
  | cons hd tl ih =>
      obtain ⟨m, d⟩ := hd
      simp only [List.map_cons, List.nodup_cons] at hnd
      rcases List.mem_cons.mp hmem with heq | htl
      · obtain ⟨rfl, rfl⟩ := Prod.mk.injEq .. ▸ heq
        simp [analyze_text, List.lookup]
      · have hne : n ≠ m := by
          intro h
          exact hnd.1 (h ▸ List.mem_map.mpr ⟨(n, c), htl, rfl⟩)
        have hbeq : (n == m) = false := beq_eq_false_iff_ne.mpr hne
        simp only [analyze_text, List.lookup, hbeq]
        exact ih hnd.2 htl

/-- Processing a checker whose check_text call returns normally and whose
optional correction call (when the capability is present) also returns
normally stores the filtered record list and no replacement. -/
theorem processChecker_clean (cs cg : Bool) (text : String) (c : Checker)
    (errs : List ErrorRecord) (hok : c.check_text text = Except.ok errs)
    (hcorr : ∀ f, c.correct_spelling = some f → ∃ s, f text = Except.ok s) :
    (processChecker cs cg text c).1 = errs.filter (keepRecord cs cg) := by
  simp only [processChecker, hok]
  cases hcs : c.correct_spelling with
  | none => rfl
  | some f =>
      obtain ⟨s, hs⟩ := hcorr f hcs
      simp [hs]

/-- A registry in which no checker exposes the correction capability
produces an empty corrections mapping. -/
theorem analyze_text_corrections_nil (registry : List (String × Checker))
    (text : String) (cs cg : Bool)
    (h : ∀ p ∈ registry, p.2.correct_spelling = none) :
    (analyze_text registry text cs cg).2 = [] := by
  induction registry with
  | nil => rfl
  | cons hd tl ih =>
      obtain ⟨name, c⟩ := hd
      have hc : c.correct_spelling = none := h (name, c) (List.mem_cons_self ..)
      simp only [analyze_text, processChecker]
      cases hct : c.check_text text with
      | error e => exact ih (fun p hp => h p (List.mem_cons_of_mem _ hp))
      | ok errs =>
          simp only [hc]
          exact ih (fun p hp => h p (List.mem_cons_of_mem _ hp))

/-- Boolean filtering condition unfolded to a proposition. -/
theorem keepRecord_iff (cs cg : Bool) (r : ErrorRecord) :
    keepRecord cs cg r = true ↔
      (r.category = "spelling" ∧ cs = true)
      ∨ ((r.category = "grammar" ∨ r.category = "statistical")
          ∧ cg = true) := by
  simp [keepRecord, Bool.or_eq_true, Bool.and_eq_true, beq_iff_eq]

/-! ## Concrete checker values used in concrete instantiations -/

/-- Checker that emits one diagnostic record of category error through a
normal check_text return. -/
def diagChecker : Checker :=
  ⟨fun t => Except.ok [⟨"error", "diagnostic failure", t⟩], none⟩

/-- Checker that emits one spelling record through a normal check_text
return. -/
def spellingOneChecker : Checker :=
  ⟨fun t => Except.ok [⟨"spelling", "m", t⟩], none⟩

/-- Checker whose check_text call raises. -/
def failingChecker : Checker :=
  ⟨fun _ => Except.error ("boom"), none⟩

/-- Checker whose check_text succeeds but whose correction capability
raises when invoked. -/
def corrFailChecker : Checker :=
  ⟨fun t => Except.ok [⟨"spelling", "m", t⟩],
   some (fun _ => Except.error ("correction failure"))⟩

/-- Tokenizer outcome producing no tokens, as the external tokenizer does
on empty input. -/
def trivialTok : String → Except String (List String) :=
  fun _ => Except.ok []

/-- Tokenizer outcome modelling a raising external tokenizer call. -/
def failTok : String → Except String (List String) :=
  fun _ => Except.error ("boom")

/-- Masked-language-model outcome modelling an unavailable model or a
raising inference call. -/
def failMlm : String → Except String (List (String × ℚ)) :=
  fun _ => Except.error ("model unavailable")

/-- Trivial percentage renderer used in concrete instantiations. -/
def noFmt : ℚ → String := fun _ => ""

/-! ## Claim C1 -/

/-- Claim C1 counterexample: a record of category error emitted by a
normal check_text return is suppressed by the filter of analyze_text,
with both flags false and also with both flags true, although the claim
states that records of category error are never suppressed. The filter
is a bare allow-list with no pass-through branch. -/
theorem analyze_text_filter_counterexample :
    diagChecker.check_text ("t") =
        Except.ok [⟨"error", "diagnostic failure", "t"⟩]
    ∧ (analyze_text [(("A"), diagChecker)] ("t") false false).1 =
        [("A", [])]
    ∧ (analyze_text [(("A"), diagChecker)] ("t") true true).1 =
        [("A", [])] :=
  ⟨rfl, rfl, rfl⟩

/-- Claim C1 (amended): for a checker whose calls return normally, a
record r emitted by its check_text is present in the results entry of
that checker iff r has category spelling and spelling checking is on, or
r has category grammar or statistical and grammar checking is on; every
record of any other category (error, format, info included) is
suppressed. Records of category error reach the results only through the
failure boundary of the orchestrator, which bypasses the filter. -/
theorem analyze_text_filter_allowlist
    (registry : List (String × Checker)) (text : String) (cs cg : Bool)
    (n : String) (c : Checker) (errs : List ErrorRecord) (r : ErrorRecord)
    (hnd : (registry.map Prod.fst).Nodup) (hmem : (n, c) ∈ registry)
    (hok : c.check_text text = Except.ok errs)
    (hcorr : ∀ f, c.correct_spelling = some f → ∃ s, f text = Except.ok s) :
    r ∈ (List.lookup n (analyze_text registry text cs cg).1).getD []
    ↔ r ∈ errs ∧ ((r.category = "spelling" ∧ cs = true)
        ∨ ((r.category = "grammar" ∨ r.category = "statistical")
            ∧ cg = true)) := by
  rw [analyze_text_lookup registry text cs cg n c hnd hmem,
      processChecker_clean cs cg text c errs hok hcorr, Option.getD_some,
      List.mem_filter]
  exact and_congr_right (fun _ => keepRecord_iff cs cg r)

/-- Witness for the amended claim C1 at a concrete registry. -/
theorem analyze_text_filter_allowlist_witness :
    (⟨"spelling", "m", "t"⟩ : ErrorRecord) ∈
      (List.lookup ("A")
        ((analyze_text [(("A"), spellingOneChecker)] ("t") true true).1)).getD
        [] :=
  (analyze_text_filter_allowlist [(("A"), spellingOneChecker)] ("t") true true
      ("A") spellingOneChecker [⟨"spelling", "m", "t"⟩]
      ⟨"spelling", "m", "t"⟩ (by decide) (List.mem_cons_self ..) rfl
      (fun f hf => Option.noConfusion hf)).mpr
    ⟨List.mem_singleton.mpr rfl, Or.inl ⟨rfl, rfl⟩⟩

/-! ## Claim C2 -/

/-- Claim C2: analyze_text is a total function (it is defined without a
failure outcome) yielding one results entry per registered checker in
every case; on empty input no registered checker raises, the rule-based
and deep-learning checkers return the empty sequence, and every record
the statistical checker can return on empty input has the empty input as
its context. -/
theorem analyze_text_total_empty_input :
    (∀ (registry : List (String × Checker)) (text : String) (cs cg : Bool),
      ((analyze_text registry text cs cg).1).map Prod.fst =
        registry.map Prod.fst)
    ∧ (∀ tokenize tamil_words mlm fmtDL predict fmtStat,
        ∀ p ∈ tamilAnalyzerModels tokenize tamil_words mlm fmtDL predict
            fmtStat,
          ∃ l, p.2.check_text ("") = Except.ok l)
    ∧ (∀ tokenize tamil_words,
        tokenize ("") = Except.ok ([] : List String) →
        RuleBased.check_text tokenize tamil_words ("") = [])
    ∧ (∀ predict fmtPct r,
        r ∈ Statistical.check_text predict fmtPct ("") → r.context = "")
    ∧ (∀ mlm fmtPct, DeepLearning.check_text mlm fmtPct ("") = []) := by
  refine ⟨analyze_text_results_map_fst, ?_, ?_, ?_, ?_⟩
  · intro tokenize tamil_words mlm fmtDL predict fmtStat p hp
    simp only [tamilAnalyzerModels, List.mem_cons, List.mem_singleton,
      List.not_mem_nil, or_false] at hp
    rcases hp with rfl | rfl | rfl <;> exact ⟨_, rfl⟩
  · intro tokenize tamil_words h
    simp only [RuleBased.check_text, RuleBased.check_text_body, h]
    rfl
  · intro predict fmtPct r hr
    unfold Statistical.check_text at hr
    cases hp : predict ("") with
    | error e =>
        rw [hp] at hr
        simp only [List.mem_singleton] at hr
        rw [hr]
    | ok q =>
        obtain ⟨sp0, sp1, gr0, gr1⟩ := q
        rw [hp] at hr
        have hap : Statistical.analyze_patterns ("") = [] := rfl
        simp only [hap, List.append_nil, List.mem_append] at hr
        rcases hr with h | h <;> split at h <;>
          simp only [List.mem_singleton, List.not_mem_nil] at h <;> rw [h]
  · intro mlm fmtPct
    rfl

/-- Witness for claim C2: the rule-based checker on empty input with the
external tokenizer returning no tokens. -/
theorem analyze_text_total_empty_input_witness :
    RuleBased.check_text trivialTok RuleBased.basic_dictionary ("") = [] :=
  analyze_text_total_empty_input.2.2.1 trivialTok RuleBased.basic_dictionary
    rfl

/-! ## Claim C3 -/

/-- Claim C3: when the check_text call of one registered checker raises,
the results entry of that checker is exactly one record of category
error over the original input, and the results entry of every checker
whose calls return normally is still its correctly filtered record
list. -/
theorem analyze_text_failure_isolation
    (registry : List (String × Checker)) (text : String) (cs cg : Bool)
    (nameA : String) (cA : Checker) (e : String)
    (hnd : (registry.map Prod.fst).Nodup)
    (hmem : (nameA, cA) ∈ registry)
    (hA : cA.check_text text = Except.error e) :
    List.lookup nameA (analyze_text registry text cs cg).1 =
      some [⟨"error", "Error processing text: " ++ e, text⟩]
    ∧ (∀ n c errs, (n, c) ∈ registry →
        c.check_text text = Except.ok errs →
        (∀ f, c.correct_spelling = some f → ∃ s, f text = Except.ok s) →
        List.lookup n (analyze_text registry text cs cg).1 =
          some (errs.filter (keepRecord cs cg))) := by
  constructor
  · rw [analyze_text_lookup registry text cs cg nameA cA hnd hmem]
    simp [processChecker, hA, errorRecordFor]
  · intro n c errs hm hok hcorr
    rw [analyze_text_lookup registry text cs cg n c hnd hm,
        processChecker_clean cs cg text c errs hok hcorr]

/-- Witness for claim C3 at a concrete two-checker registry with one
failing checker. -/
theorem analyze_text_failure_isolation_witness :
    List.lookup ("A")
        ((analyze_text [(("A"), failingChecker), (("B"), spellingOneChecker)]
          ("t") true true).1) =
      some [⟨"error", "Error processing text: boom", "t"⟩]
    ∧ List.lookup ("B")
        ((analyze_text [(("A"), failingChecker), (("B"), spellingOneChecker)]
          ("t") true true).1) =
      some [⟨"spelling", "m", "t"⟩] :=
  ⟨(analyze_text_failure_isolation
      [(("A"), failingChecker), (("B"), spellingOneChecker)] ("t") true true
      ("A") failingChecker ("boom") (by decide) (List.mem_cons_self ..)
      rfl).1,
   (analyze_text_failure_isolation
      [(("A"), failingChecker), (("B"), spellingOneChecker)] ("t") true true
      ("A") failingChecker ("boom") (by decide) (List.mem_cons_self ..)
      rfl).2 ("B") spellingOneChecker [⟨"spelling", "m", "t"⟩]
     (List.mem_cons_of_mem _ (List.mem_cons_self ..)) rfl
     (fun f hf => Option.noConfusion hf)⟩

/-! ## Claim C4 -/

/-- Claim C4 counterexample: an internal failure of the deep-learning
checker is not converted into a returned record of category error. The
masked-language-model call fails on the concrete input, yet check_text
returns the empty list: the word-probability assessment catches its own
failure and returns no words (it does the same when the model is
unavailable), so no failure ever reaches the except clause of check_text
and no error-category record is produced. -/
theorem dl_swallows_failure_counterexample :
    failMlm ("t") = Except.error ("model unavailable")
    ∧ DeepLearning.check_text failMlm noFmt ("t") = [] :=
  ⟨rfl, rfl⟩

/-- Claim C4 (amended): none of the three checkers propagates an
exception out of check_text (each is a total function into record
lists). The rule-based and statistical checkers convert any failure
raised inside their try block (the external tokenizer call, the
feature-extraction and prediction pipeline) into a single returned
record of category error whose message embeds the failure description
and whose context is the original input. The deep-learning checker does
not: its real failure sources are swallowed by the word-probability
assessment into an empty word list, its output for a failing model is
exactly the pattern records, which never carry category error; its own
except clause (the handleOutcome function) would convert a failure into
a single error record, but the assessed failure paths never reach it. -/
theorem checker_check_text_catches (text e : String) :
    (∀ tokenize tamil_words, tokenize text = Except.error e →
      RuleBased.check_text tokenize tamil_words text =
        [⟨"error", "Error in text analysis: " ++ e, text⟩])
    ∧ (∀ predict fmtPct, predict text = Except.error e →
      Statistical.check_text predict fmtPct text =
        [⟨"error", "Error during analysis: " ++ e, text⟩])
    ∧ (∀ mlm s, mlm s = Except.error e →
      DeepLearning.assess_word_probability mlm s = [])
    ∧ (∀ fmtPct, DeepLearning.check_text (fun _ => Except.error e) fmtPct
        text = (split_sentences text).flatMap DeepLearning.check_patterns)
    ∧ (∀ s r, r ∈ DeepLearning.check_patterns s → r.category ≠ "error")
    ∧ DeepLearning.handleOutcome text (Except.error e) =
        [⟨"error", "Error in analysis: " ++ e, text⟩] := by
  refine ⟨?_, ?_, ?_, ?_, ?_, rfl⟩
  · intro tokenize tamil_words h
    simp [RuleBased.check_text, RuleBased.check_text_body, h]
  · intro predict fmtPct h
    simp [Statistical.check_text, h]
  · intro mlm s h
    simp [DeepLearning.assess_word_probability, h]
  · intro fmtPct
    simp [DeepLearning.check_text, DeepLearning.handleOutcome,
      DeepLearning.check_text_body, DeepLearning.assess_word_probability]
  · intro s r hr
    simp only [DeepLearning.check_patterns] at hr
    rcases List.mem_append.mp hr with hab | h
    · rcases List.mem_append.mp hab with h | h
      · obtain ⟨p, hpmem, hp⟩ := List.mem_filterMap.mp h
        split at hp
        · have hcat : r.category = "grammar" := by
            rw [← Option.some.inj hp]
          rw [hcat]
          decide
        · exact Option.noConfusion hp
      · obtain ⟨p, hpmem, hrp⟩ := List.mem_flatMap.mp h
        have hcat : r.category = "spelling" := by
          rw [List.eq_of_mem_replicate hrp]
        rw [hcat]
        decide
    · obtain ⟨p, hpmem, hp⟩ := List.mem_filterMap.mp h
      split at hp
      · have hcat : r.category = "format" := by
          rw [← Option.some.inj hp]
        rw [hcat]
        decide
      · exact Option.noConfusion hp

/-- Witness for the amended claim C4: a raising tokenizer call on a
concrete input for the rule-based checker, and the failing-model output
of the deep-learning checker on a concrete input. -/
theorem checker_check_text_catches_witness :
    RuleBased.check_text failTok RuleBased.basic_dictionary ("t") =
      [⟨"error", "Error in text analysis: boom", "t"⟩]
    ∧ DeepLearning.check_text (fun _ => Except.error ("boom")) noFmt ("t") =
        (split_sentences ("t")).flatMap DeepLearning.check_patterns :=
  ⟨(checker_check_text_catches ("t") ("boom")).1 failTok
      RuleBased.basic_dictionary rfl,
   (checker_check_text_catches ("t") ("boom")).2.2.2.1 noFmt⟩

/-! ## Claim C5 -/

/-- Claim C5 counterexample: for a checker whose check_text succeeds but
whose correction call raises, the corrections mapping receives no entry
at all (no explanatory string is substituted) and the already-computed
filtered records of that checker are replaced by a single synthetic
error record, not preserved: the except clause of the loop overwrites
the results entry and the corrections assignment never executes. -/
theorem analyze_text_correction_failure_counterexample :
    corrFailChecker.check_text ("t") =
        Except.ok [⟨"spelling", "m", "t"⟩]
    ∧ analyze_text [(("A"), corrFailChecker)] ("t") true true =
        ([("A", [⟨"error", "Error processing text: correction failure",
            "t"⟩])],
         []) :=
  ⟨rfl, rfl⟩

/-- Claim C5 (amended): a correction failure is non-fatal to the batch:
every other checker keeps its own entries and the loop continues; but
the failing checker receives no corrections entry, and its
already-computed filtered records are replaced by a single error record
over the original input. -/
theorem analyze_text_correction_failure
    (pre post : List (String × Checker)) (n : String) (c : Checker)
    (text : String) (cs cg : Bool) (f : String → Except String String)
    (e : String) (errs : List ErrorRecord)
    (hok : c.check_text text = Except.ok errs)
    (hcap : c.correct_spelling = some f)
    (hf : f text = Except.error e) :
    (analyze_text (pre ++ (n, c) :: post) text cs cg).1 =
        (analyze_text pre text cs cg).1
          ++ (n, [errorRecordFor text e]) :: (analyze_text post text cs cg).1
    ∧ (analyze_text (pre ++ (n, c) :: post) text cs cg).2 =
        (analyze_text pre text cs cg).2 ++ (analyze_text post text cs cg).2 := by
  have hpc : processChecker cs cg text c = ([errorRecordFor text e], none) := by
    simp [processChecker, hok, hcap, hf]
  have h1 := analyze_text_append pre ((n, c) :: post) text cs cg
  constructor
  · rw [h1.1]
    simp [analyze_text, hpc]
  · rw [h1.2]
    simp [analyze_text, hpc]

/-- Witness for the amended claim C5 at a concrete registry: the batch
continues past the correction failure and the unaffected checker keeps
its entry. -/
theorem analyze_text_correction_failure_witness :
    (analyze_text ([] ++ (("A"), corrFailChecker)
        :: [(("B"), spellingOneChecker)]) ("t") true true).1 =
      [("A", [⟨"error", "Error processing text: correction failure", "t"⟩]),
       ("B", [⟨"spelling", "m", "t"⟩])] :=
  ((analyze_text_correction_failure [] [(("B"), spellingOneChecker)] ("A")
      corrFailChecker ("t") true true
      (fun _ => Except.error ("correction failure")) ("correction failure")
      [⟨"spelling", "m", "t"⟩] rfl rfl rfl).1).trans rfl

/-! ## Claim C6 -/

/-- Claim C6 counterexample: when the third checker constructor raises,
the constructor of TamilTextAnalyzer propagates that exception instead
of building a registry: the models dictionary literal has no exception
handling, so the analyzer is not constructed, the failing checker is
neither omitted nor retained in a failing state. -/
theorem tamilAnalyzerInit_counterexample :
    tamilAnalyzerInit (Except.ok spellingOneChecker)
        (Except.ok spellingOneChecker)
        (Except.error ("classifier fitting failed")) =
      Except.error ("classifier fitting failed") :=
  rfl

/-- Claim C6 (amended): registry construction provides no isolation: the
first checker constructor that raises propagates its exception out of
the analyzer constructor and no analyzer is constructed; only when all
three constructors return does the registry exist, holding the three
checkers in order. -/
theorem tamilAnalyzerInit_propagates (rb dl st : Except String Checker)
    (e : String) :
    (rb = Except.error e → tamilAnalyzerInit rb dl st = Except.error e)
    ∧ (∀ c, rb = Except.ok c → dl = Except.error e →
        tamilAnalyzerInit rb dl st = Except.error e)
    ∧ (∀ c d, rb = Except.ok c → dl = Except.ok d → st = Except.error e →
        tamilAnalyzerInit rb dl st = Except.error e)
    ∧ (∀ c d s, rb = Except.ok c → dl = Except.ok d → st = Except.ok s →
        tamilAnalyzerInit rb dl st =
          Except.ok [("Rule-based", c), ("Deep Learning", d),
                     ("Statistical", s)]) := by
  refine ⟨?_, ?_, ?_, ?_⟩ <;> intros <;> subst_vars <;> rfl

/-- Witness for the amended claim C6: a failing first constructor
propagates. -/
theorem tamilAnalyzerInit_propagates_witness :
    tamilAnalyzerInit (Except.error ("model unavailable"))
        (Except.ok spellingOneChecker) (Except.ok spellingOneChecker) =
      Except.error ("model unavailable") :=
  (tamilAnalyzerInit_propagates (Except.error ("model unavailable"))
      (Except.ok spellingOneChecker) (Except.ok spellingOneChecker)
      ("model unavailable")).1 rfl

/-! ## Claim C7 -/

/-- Claim C7: the results keys follow the registry construction order
entry by entry for any flags; and the record sequence of a cleanly
running checker is the filter of its own emitted sequence, which is a
sublist of it: no reordering, no duplication, no merging with records of
another checker. -/
theorem analyze_text_order_preserved
    (registry : List (String × Checker)) (text : String) (cs cg : Bool) :
    ((analyze_text registry text cs cg).1).map Prod.fst =
        registry.map Prod.fst
    ∧ (∀ n c errs, (registry.map Prod.fst).Nodup → (n, c) ∈ registry →
        c.check_text text = Except.ok errs →
        (∀ f, c.correct_spelling = some f → ∃ s, f text = Except.ok s) →
        List.lookup n (analyze_text registry text cs cg).1 =
          some (errs.filter (keepRecord cs cg))
        ∧ (errs.filter (keepRecord cs cg)).Sublist errs) := by
  refine ⟨analyze_text_results_map_fst registry text cs cg, ?_⟩
  intro n c errs hnd hm hok hcorr
  exact ⟨by
    rw [analyze_text_lookup registry text cs cg n c hnd hm,
        processChecker_clean cs cg text c errs hok hcorr],
    List.filter_sublist errs⟩

/-- Witness for claim C7 at a concrete registry. -/
theorem analyze_text_order_preserved_witness :
    List.lookup ("A")
        ((analyze_text [(("A"), spellingOneChecker)] ("t") true true).1) =
      some [⟨"spelling", "m", "t"⟩] :=
  ((analyze_text_order_preserved [(("A"), spellingOneChecker)] ("t")
      true true).2 ("A") spellingOneChecker [⟨"spelling", "m", "t"⟩]
      (by decide) (List.mem_cons_self ..) rfl
      (fun f hf => Option.noConfusion hf)).1

/-! ## Claim C8 -/

/-- Claim C8: the tally step is a pure function of the results mapping:
equal inputs give equal tallies, no row of the tally has category error,
and the number of rows is exactly the number of records across all
checkers whose category is not error (each such record counting one). -/
theorem error_data_tally (results₁ results₂ : List (String × List ErrorRecord)) :
    (results₁ = results₂ → error_data results₁ = error_data results₂)
    ∧ (∀ q ∈ error_data results₁, q.2 ≠ "error")
    ∧ (error_data results₁).length =
        (results₁.map
          (fun p => p.2.countP (fun r => r.category != "error"))).sum := by
  refine ⟨fun h => by rw [h], ?_, ?_⟩
  · intro q hq
    simp only [error_data, List.mem_flatMap, List.mem_map] at hq
    obtain ⟨p, hp, t, ht, rfl⟩ := hq
    have h2 := (List.mem_filter.mp ht).2
    simpa [bne_iff_ne] using h2
  · induction results₁ with
    | nil => rfl
    | cons hd tl ih =>
        simp only [error_data, List.flatMap_cons, List.length_append,
          List.length_map, List.map_cons, List.sum_cons] at *
        rw [ih, List.countP_eq_length_filter, List.filter_map,
          List.length_map]
        rfl

/-- Witness for claim C8 at a concrete results mapping holding three
records, one of category error. -/
theorem error_data_tally_witness :
    error_data [("A", [⟨"spelling", "m", "t"⟩, ⟨"error", "x", "t"⟩]),
        ("B", [⟨"grammar", "g", "t"⟩])] =
      error_data [("A", [⟨"spelling", "m", "t"⟩, ⟨"error", "x", "t"⟩]),
        ("B", [⟨"grammar", "g", "t"⟩])]
    ∧ (error_data [("A", [⟨"spelling", "m", "t"⟩, ⟨"error", "x", "t"⟩]),
        ("B", [⟨"grammar", "g", "t"⟩])]).length = 2 :=
  ⟨(error_data_tally
      [("A", [⟨"spelling", "m", "t"⟩, ⟨"error", "x", "t"⟩]),
        ("B", [⟨"grammar", "g", "t"⟩])]
      [("A", [⟨"spelling", "m", "t"⟩, ⟨"error", "x", "t"⟩]),
        ("B", [⟨"grammar", "g", "t"⟩])]).1 rfl,
   ((error_data_tally
      [("A", [⟨"spelling", "m", "t"⟩, ⟨"error", "x", "t"⟩]),
        ("B", [⟨"grammar", "g", "t"⟩])]
      [("A", [⟨"spelling", "m", "t"⟩, ⟨"error", "x", "t"⟩]),
        ("B", [⟨"grammar", "g", "t"⟩])]).2.2).trans (by decide)⟩

/-! ## Claim C9 -/

/-- Claim C9: on the scenario input, the rule-based check_text returns at
least one record of category grammar, produced by the
first-person-subject-with-neuter-verb-suffix pattern, for every outcome
of the external tokenizer that returns normally and every loaded
dictionary. -/
theorem rule_based_grammar_scenario
    (tokenize : String → Except String (List String))
    (tamil_words : List String) (words : List String)
    (h : tokenize ("நான் பள்ளிக்கு செல்கிறது") = Except.ok words) :
    (⟨"grammar", "First person with neuter verb",
        "நான் பள்ளிக்கு செல்கிறது"⟩ : ErrorRecord) ∈
      RuleBased.check_text tokenize tamil_words
        ("நான் பள்ளிக்கு செல்கிறது") := by
  simp only [RuleBased.check_text, RuleBased.check_text_body, h]
  refine List.mem_append_right _ ?_
  decide

/-- Witness for claim C9 with a concrete tokenizer outcome and the basic
dictionary. -/
theorem rule_based_grammar_scenario_witness :
    (⟨"grammar", "First person with neuter verb",
        "நான் பள்ளிக்கு செல்கிறது"⟩ : ErrorRecord) ∈
      RuleBased.check_text trivialTok RuleBased.basic_dictionary
        ("நான் பள்ளிக்கு செல்கிறது") :=
  rule_based_grammar_scenario trivialTok RuleBased.basic_dictionary [] rfl

/-! ## Claim C10 -/

/-- Claim C10: none of the three registered checkers exposes the
correct_spelling capability (the deep-learning suggestion method has a
different name, which the hasattr probe never matches), so the
corrections mapping returned by analyze_text is empty for every input
and every flag combination and every outcome of the external
collaborators. -/
theorem analyzer_corrections_always_empty
    (tokenize : String → Except String (List String))
    (tamil_words : List String)
    (mlm : String → Except String (List (String × ℚ))) (fmtDL : ℚ → String)
    (predict : String → Except String (ℚ × ℚ × ℚ × ℚ)) (fmtStat : ℚ → String)
    (text : String) (cs cg : Bool) :
    (∀ p ∈ tamilAnalyzerModels tokenize tamil_words mlm fmtDL predict fmtStat,
        p.2.correct_spelling = none)
    ∧ (analyze_text
        (tamilAnalyzerModels tokenize tamil_words mlm fmtDL predict fmtStat)
        text cs cg).2 = [] := by
  have h : ∀ p ∈ tamilAnalyzerModels tokenize tamil_words mlm fmtDL predict
      fmtStat, p.2.correct_spelling = none := by
    intro p hp
    simp only [tamilAnalyzerModels, List.mem_cons, List.mem_singleton,
      List.not_mem_nil, or_false] at hp
    rcases hp with rfl | rfl | rfl <;> rfl
  exact ⟨h, analyze_text_corrections_nil _ text cs cg h⟩
